import Mathlib

/-!
Shallow embedding of the task-control core of the repository
(src/bot.py and src/bot_v3.py) and proofs about its claims.

Strings handled character-by-character are modelled as List Char;
opaque payload strings are modelled as String.  Filesystem artifacts
are modelled as Option-valued slots (presence = the file exists) or as
an association list from paths to contents.  Timestamps are abstract
Nat ticks supplied by the caller.
-/

namespace TelegramControl

/-! ## Python string primitives -/

/-- Python str.strip and the regex class backslash-s whitespace set
(space, tab, newline, carriage return, vertical tab, form feed). -/
def isPyWhitespace (c : Char) : Bool :=
  c = ' ' || c = '\t' || c = '\n' || c = '\r' || c = Char.ofNat 11 || c = Char.ofNat 12

/-- The character class of ALLOWED_TASK_CHARS in src/bot.py line 46:
regex class a-zA-Z0-9, whitespace, hyphen, underscore, dot, comma,
exclamation mark, question mark. -/
def isAllowedTaskChar (c : Char) : Bool :=
  c.isAlpha || c.isDigit || isPyWhitespace c ||
    c = '-' || c = '_' || c = '.' || c = ',' || c = '!' || c = '?'

/-- Drop leading Python whitespace (first half of str.strip). -/
def pyStripLeft (s : List Char) : List Char :=
  s.dropWhile isPyWhitespace

/-- Drop trailing Python whitespace (second half of str.strip). -/
def pyStripRight : List Char → List Char
  | [] => []
  | c :: rest =>
    match pyStripRight rest with
    | [] => if isPyWhitespace c then [] else [c]
    | r => c :: r

/-- Python str.strip: remove leading and trailing whitespace. -/
def pyStrip (s : List Char) : List Char :=
  pyStripRight (pyStripLeft s)

/-- Contiguous-substring occurrence, modelling the Python in operator
on str (also for one-character needles): the needle is a prefix of
some suffix of the haystack. -/
def containsSub (needle : List Char) : List Char → Bool
  | [] => needle.isEmpty
  | c :: rest => needle.isPrefixOf (c :: rest) || containsSub needle rest

/-- Python str.join with a single space over a list of argument words
(the expression joining context.args in the handlers). -/
def joinSpace : List (List Char) → List Char
  | [] => []
  | [a] => a
  | a :: rest => a ++ ' ' :: joinSpace rest

/-! ## src/bot.py : configuration, authorization, sanitization -/

/-- src/bot.py line 45. -/
def MAX_TASK_DESCRIPTION_LENGTH : Nat := 500

/-- Full anchored match of the ALLOWED_TASK_CHARS regex (caret, the
class with a plus, dollar) against an already stripped string: at
least one character and every character in the class. -/
def ALLOWED_TASK_CHARS_match (s : List Char) : Bool :=
  !s.isEmpty && s.all isAllowedTaskChar

/-- src/bot.py is_authorized (lines 80-85): the decimal rendering of
the numeric user id must equal the configured AUTHORIZED_USER_ID
string; an unset configuration (none) authorizes nobody. -/
def is_authorized (user_id : Nat) (AUTHORIZED_USER_ID : Option String) : Bool :=
  match AUTHORIZED_USER_ID with
  | none => false
  | some a => toString user_id == a

/-- The distinct ValueError messages raised by sanitize_task_description. -/
inductive SanitizeError
  | tooLong
  | forbiddenChars
  | pathSeparators
deriving DecidableEq

/-- src/bot.py sanitize_task_description (lines 88-121): strip, length
check, anchored character-class check, path-separator check; returns
the stripped description on success. -/
def sanitize_task_description (description : List Char) : Except SanitizeError (List Char) :=
  let d := pyStrip description
  if d.length > MAX_TASK_DESCRIPTION_LENGTH then
    .error .tooLong
  else if !ALLOWED_TASK_CHARS_match d then
    .error .forbiddenChars
  else if containsSub ['/'] d || containsSub ['\\'] d || containsSub ['.', '.'] d then
    .error .pathSeparators
  else
    .ok d

/-! ## src/bot.py : state and handlers -/

/-- The status field written into a task file is always pending. -/
inductive TaskStatus
  | pending
deriving DecidableEq

/-- One task artifact in TASKS_DIR: the markdown file telegram_ts.md
with its creation tick, its (always pending) status line and the
sanitized description interpolated into the body. -/
structure TaskFile where
  createdAt : Nat
  status : TaskStatus
  description : List Char
deriving DecidableEq

/-- The STATUS_FILE text written by create_task: the task description,
the start tick and the name (tick) of the task file. -/
structure StatusRecord where
  taskDescription : List Char
  startedAt : Nat
  fileName : Nat
deriving DecidableEq

/-- The durable artifacts touched by src/bot.py: the TASKS_DIR
contents, the STATUS file, the APPROVAL file (presence = open gate)
and the RESPONSE file. -/
structure BotState where
  tasks : List TaskFile
  statusFile : Option StatusRecord
  approvalFile : Option String
  responseFile : Option String
deriving DecidableEq

/-- Replies of the create_task handler (none models the silent return
on an unauthorized user). -/
inductive CreateReply
  | usage
  | validationError (e : SanitizeError)
  | created (description : List Char) (fileName : Nat)
deriving DecidableEq

/-- src/bot.py create_task (lines 184-245): authorization guard, usage
guard, sanitization, then write the task file and overwrite the
STATUS file. -/
def create_task (auth : Option String) (now : Nat) (st : BotState)
    (user_id : Nat) (args : List (List Char)) : BotState × Option CreateReply :=
  if !is_authorized user_id auth then
    (st, none)
  else if args.isEmpty then
    (st, some .usage)
  else
    match sanitize_task_description (joinSpace args) with
    | .error e => (st, some (.validationError e))
    | .ok description =>
        let task : TaskFile := { createdAt := now, status := .pending, description := description }
        ({ st with
            tasks := st.tasks ++ [task],
            statusFile := some { taskDescription := description, startedAt := now, fileName := now } },
         some (.created description now))

/-- Replies of the approve and reject handlers. -/
inductive ResolveReply
  | noPending
  | approvedReply
  | rejectedReply
deriving DecidableEq

/-- Whether the approval gate is open: the APPROVAL file exists. -/
def gateOpen (st : BotState) : Bool :=
  st.approvalFile.isSome

/-- Whether a resolution value is present in the RESPONSE file. -/
def resolutionPresent (st : BotState) : Bool :=
  st.responseFile == some "APPROVED" || st.responseFile == some "REJECTED"

/-- src/bot.py approve (lines 248-265), big step: if the gate is open,
write APPROVED to the RESPONSE file and delete the APPROVAL file. -/
def approve (auth : Option String) (st : BotState) (user_id : Nat) :
    BotState × Option ResolveReply :=
  if !is_authorized user_id auth then
    (st, none)
  else if st.approvalFile.isSome then
    ({ st with responseFile := some "APPROVED", approvalFile := none }, some .approvedReply)
  else
    (st, some .noPending)

/-- src/bot.py reject (lines 268-285), big step: if the gate is open,
write REJECTED to the RESPONSE file and delete the APPROVAL file. -/
def reject (auth : Option String) (st : BotState) (user_id : Nat) :
    BotState × Option ResolveReply :=
  if !is_authorized user_id auth then
    (st, none)
  else if st.approvalFile.isSome then
    ({ st with responseFile := some "REJECTED", approvalFile := none }, some .rejectedReply)
  else
    (st, some .noPending)

/-- The filesystem states traversed by the authorized approve handler
with an open gate, one per atomic file operation: initial state, after
RESPONSE_FILE.write_text (line 258), after APPROVAL_FILE.unlink
(line 259).  With a closed gate the handler performs no operation. -/
def approve_steps (st : BotState) : List BotState :=
  if st.approvalFile.isSome then
    [st,
     { st with responseFile := some "APPROVED" },
     { st with responseFile := some "APPROVED", approvalFile := none }]
  else
    [st]

/-- The filesystem states traversed by the authorized reject handler
with an open gate: initial, after the RESPONSE write (line 278), after
the APPROVAL unlink (line 279). -/
def reject_steps (st : BotState) : List BotState :=
  if st.approvalFile.isSome then
    [st,
     { st with responseFile := some "REJECTED" },
     { st with responseFile := some "REJECTED", approvalFile := none }]
  else
    [st]

/-! ## src/bot_v3.py : dual-mode execution -/

/-- The two execution-mode strings ever stored or returned by
src/bot_v3.py ("local" and "cloud"). -/
inductive Mode
  | «local»
  | cloud
deriving DecidableEq

/-- One entry of psutil.process_iter with the name and cmdline info
fields; cmdline may be missing (None in Python). -/
structure ProcInfo where
  name : String
  cmdline : Option (List String)
deriving DecidableEq

/-- Python substring membership test (the in operator on str). -/
def pyIn (needle haystack : String) : Bool :=
  containsSub needle.toList haystack.toList

/-- Python str.join with a single space over a list of strings. -/
def joinWords (ws : List String) : String :=
  String.intercalate " " ws

/-- Python str.lower, character by character (ASCII case mapping, the
only case relevant to the signature literals). -/
def pyToLower (s : String) : String :=
  String.mk (s.toList.map Char.toLower)

/-- The per-process test inside detect_execution_mode (line 27):
the substring claude occurs in the lowercased joined cmdline, or the
substring code occurs in the lowercased process name. -/
def agentSignature (p : ProcInfo) : Bool :=
  pyIn "claude" (pyToLower (joinWords (p.cmdline.getD []))) ||
    pyIn "code" (pyToLower p.name)

/-- src/bot_v3.py detect_execution_mode (lines 22-31): scan the live
processes; return local on the first agent-signature match, else
cloud.  Processes that raise NoSuchProcess or AccessDenied are
skipped; the argument is the list of accessible processes. -/
def detect_execution_mode (procs : List ProcInfo) : Mode :=
  if procs.any agentSignature then .«local» else .cloud

/-- Association-list write: set the value at a key, keeping the other
bindings (models both a dict item assignment and a file write at a
path). -/
def assocSet {α β : Type} [DecidableEq α] : List (α × β) → α → β → List (α × β)
  | [], k, v => [(k, v)]
  | (k0, v0) :: rest, k, v =>
    if k0 = k then (k0, v) :: rest else (k0, v0) :: assocSet rest k v

/-- Association-list lookup (dict .get / reading a file if present). -/
def assocGet {α β : Type} [DecidableEq α] : List (α × β) → α → Option β
  | [], _ => none
  | (k0, v0) :: rest, k => if k0 = k then some v0 else assocGet rest k

/-- The mutable state of src/bot_v3.py: the global per-chat
user_execution_mode dict (line 20) and the filesystem seen as a map
from paths to text contents. -/
structure V3State where
  user_execution_mode : List (Nat × Mode)
  files : List (String × String)
deriving DecidableEq

/-- The fixed exchange-file path used by trigger_local_execution
(line 145), after expanduser. -/
def pending_task_path : String :=
  "~/claude_code_tasks/pending_task.txt"

/-- src/bot_v3.py trigger_local_execution (lines 143-155): write the
task description to the fixed exchange path (mode w truncates any
previous contents) and report success.  The except branch fires only
on an OS-level write failure, which the filesystem model does not
produce. -/
def trigger_local_execution (st : V3State) (task_description : String) : V3State × Bool :=
  ({ st with files := assocSet st.files pending_task_path task_description }, true)

/-- Python truthiness of the GITHUB_TOKEN configuration value: None
and the empty string are falsy. -/
def tokenPresent (t : Option String) : Bool :=
  match t with
  | none => false
  | some s => !s.isEmpty

/-- Outcome of the requests.post call in trigger_github_actions: an
HTTP response with a status code and body, or a raised exception. -/
inductive HttpResponse
  | status (code : Nat) (body : String)
  | exc
deriving DecidableEq

/-- The payload of one outbound repository_dispatch call (the
client_payload fields of lines 121-128). -/
structure DispatchCall where
  chat_id : Nat
  task : String
  message_id : Nat
deriving DecidableEq

/-- src/bot_v3.py trigger_github_actions (lines 110-141): with a falsy
token, fail without any network call; otherwise perform exactly one
POST and succeed precisely on status code 204; any other status or an
exception is failure.  Returns the list of calls made and the
boolean result. -/
def trigger_github_actions (GITHUB_TOKEN : Option String) (net : HttpResponse)
    (chat_id : Nat) (task_description : String) (message_id : Nat) :
    List DispatchCall × Bool :=
  if !tokenPresent GITHUB_TOKEN then
    ([], false)
  else
    match net with
    | .status code _ => ([⟨chat_id, task_description, message_id⟩], code = 204)
    | .exc => ([⟨chat_id, task_description, message_id⟩], false)

/-- Replies sent by the v3 handlers. -/
inductive V3Reply
  | usage
  | queued (mode : Mode) (task : String)
  | cloudOk
  | cloudFail
  | localOk
  | localFail
  | switchedCloud
  | switchedLocal
  | autoDetected (mode : Mode)
deriving DecidableEq

/-- The mode used for a new task (src/bot_v3.py line 73): the stored
per-chat mode if present, else the liveness probe's answer. -/
def resolve_mode (m : List (Nat × Mode)) (chat_id : Nat) (procs : List ProcInfo) : Mode :=
  (assocGet m chat_id).getD (detect_execution_mode procs)

/-- src/bot_v3.py task_command (lines 58-108): usage guard, join the
arguments, resolve the mode, send the queued reply, then dispatch to
the cloud trigger or the local exchange file and report the result.
No authorization check appears anywhere in this handler.  Returns the
new state, the outbound dispatch calls and the replies sent. -/
def task_command (GITHUB_TOKEN : Option String) (procs : List ProcInfo) (net : HttpResponse)
    (st : V3State) (chat_id : Nat) (args : List String) (message_id : Nat) :
    V3State × List DispatchCall × List V3Reply :=
  if args.isEmpty then
    (st, [], [.usage])
  else
    let task_description := joinWords args
    let mode := resolve_mode st.user_execution_mode chat_id procs
    match mode with
    | .cloud =>
        let r := trigger_github_actions GITHUB_TOKEN net chat_id task_description message_id
        (st, r.1, [.queued mode task_description, if r.2 then .cloudOk else .cloudFail])
    | .«local» =>
        let r := trigger_local_execution st task_description
        (r.1, [], [.queued mode task_description, if r.2 then .localOk else .localFail])

/-- src/bot_v3.py cloud_mode (lines 157-166): unconditionally store
cloud for the requesting chat; no authorization check. -/
def cloud_mode (st : V3State) (chat_id : Nat) : V3State × V3Reply :=
  ({ st with user_execution_mode := assocSet st.user_execution_mode chat_id .cloud },
   .switchedCloud)

/-- src/bot_v3.py local_mode (lines 168-177): unconditionally store
local for the requesting chat; no authorization check. -/
def local_mode (st : V3State) (chat_id : Nat) : V3State × V3Reply :=
  ({ st with user_execution_mode := assocSet st.user_execution_mode chat_id .«local» },
   .switchedLocal)

/-- src/bot_v3.py auto_mode (lines 179-189): run the liveness probe
once and store its concrete answer (local or cloud, never a dynamic
auto marker) for the requesting chat; no authorization check. -/
def auto_mode (procs : List ProcInfo) (st : V3State) (chat_id : Nat) : V3State × V3Reply :=
  let mode := detect_execution_mode procs
  ({ st with user_execution_mode := assocSet st.user_execution_mode chat_id mode },
   .autoDetected mode)

deriving instance DecidableEq for Except

/-! ## Helper lemmas about the string primitives -/

theorem containsSub_nil (n : List Char) : containsSub n [] = n.isEmpty := rfl

theorem ne_nil_of_containsSub {n l : List Char} (hn : n ≠ [])
    (h : containsSub n l = true) : l ≠ [] := by
  cases l with
  | nil =>
    rw [containsSub_nil] at h
    exact absurd (List.isEmpty_iff.mp h) hn
  | cons a t => simp

theorem containsSub_of_isPrefixOf {n l : List Char} (h : n.isPrefixOf l = true) :
    containsSub n l = true := by
  cases l with
  | nil =>
    have : n = [] := List.prefix_nil.mp (List.isPrefixOf_iff_prefix.mp h)
    subst this
    rfl
  | cons a t =>
    unfold containsSub
    rw [h]
    rfl

theorem containsSub_singleton {c : Char} {l : List Char} :
    containsSub [c] l = true ↔ c ∈ l := by
  induction l with
  | nil => simp [containsSub]
  | cons a t ih =>
    unfold containsSub
    rw [Bool.or_eq_true, ih]
    constructor
    · rintro (h | h)
      · simp only [List.isPrefixOf, Bool.and_true] at h
        rw [beq_iff_eq.mp h]
        exact List.mem_cons_self a t
      · exact List.mem_cons_of_mem _ h
    · intro h
      rcases List.mem_cons.mp h with rfl | h
      · exact Or.inl (by simp [List.isPrefixOf])
      · exact Or.inr h

theorem pyStripRight_cons_of_ne {a : Char} {t : List Char} (h : pyStripRight t ≠ []) :
    pyStripRight (a :: t) = a :: pyStripRight t := by
  show (match pyStripRight t with
    | [] => if isPyWhitespace a then [] else [a]
    | r => a :: r) = a :: pyStripRight t
  cases hpr : pyStripRight t with
  | nil => exact absurd hpr h
  | cons x r => rfl

theorem pyStripRight_cons_of_eq_nil {a : Char} {t : List Char}
    (hw : isPyWhitespace a = false) (h : pyStripRight t = []) :
    pyStripRight (a :: t) = [a] := by
  show (match pyStripRight t with
    | [] => if isPyWhitespace a then [] else [a]
    | r => a :: r) = [a]
  rw [h, hw]
  rfl

theorem isPrefixOf_pyStripRight {n : List Char} :
    ∀ {l : List Char}, n ≠ [] → n.all (fun c => !isPyWhitespace c) = true →
      n.isPrefixOf l = true → n.isPrefixOf (pyStripRight l) = true := by
  induction n with
  | nil => intro l hn _ _; exact absurd rfl hn
  | cons d ns ih =>
    intro l hn hw h
    cases l with
    | nil => simp [List.isPrefixOf] at h
    | cons a t =>
      rw [List.isPrefixOf_cons₂, Bool.and_eq_true] at h
      obtain ⟨hd, hns⟩ := h
      have hda : d = a := beq_iff_eq.mp hd
      have hwd : isPyWhitespace d = false := by
        have h5 := (List.all_eq_true.mp hw) d (List.mem_cons_self d ns)
        simpa using h5
      cases ns with
      | nil =>
        subst hda
        cases hpr : pyStripRight t with
        | nil =>
          rw [pyStripRight_cons_of_eq_nil hwd hpr]
          simp [List.isPrefixOf]
        | cons x r =>
          rw [pyStripRight_cons_of_ne (by rw [hpr]; simp)]
          simp [List.isPrefixOf]
      | cons e ns2 =>
        have hwns : (e :: ns2).all (fun c => !isPyWhitespace c) = true := by
          rw [List.all_cons, Bool.and_eq_true] at hw
          exact hw.2
        have hih := ih (by simp) hwns hns
        have hne2 : pyStripRight t ≠ [] := by
          intro h0
          rw [h0] at hih
          simp [List.isPrefixOf] at hih
        rw [pyStripRight_cons_of_ne hne2, List.isPrefixOf_cons₂, Bool.and_eq_true]
        exact ⟨hd, hih⟩

theorem containsSub_pyStripRight {n : List Char} (hn : n ≠ [])
    (hw : n.all (fun c => !isPyWhitespace c) = true) :
    ∀ {l : List Char}, containsSub n l = true → containsSub n (pyStripRight l) = true := by
  intro l
  induction l with
  | nil =>
    intro h
    rw [containsSub_nil, List.isEmpty_iff] at h
    exact absurd h hn
  | cons a t ih =>
    intro h
    unfold containsSub at h
    rw [Bool.or_eq_true] at h
    rcases h with h | h
    · exact containsSub_of_isPrefixOf (isPrefixOf_pyStripRight hn hw h)
    · have hih := ih h
      have hne : pyStripRight t ≠ [] := ne_nil_of_containsSub hn hih
      rw [pyStripRight_cons_of_ne hne]
      unfold containsSub
      rw [hih]
      simp

theorem containsSub_dropWhile {n : List Char} (hn : n ≠ [])
    (hw : n.all (fun c => !isPyWhitespace c) = true) :
    ∀ {l : List Char}, containsSub n l = true →
      containsSub n (l.dropWhile isPyWhitespace) = true := by
  intro l
  induction l with
  | nil =>
    intro h
    rw [containsSub_nil, List.isEmpty_iff] at h
    exact absurd h hn
  | cons a t ih =>
    intro h
    rw [List.dropWhile_cons]
    by_cases ha : isPyWhitespace a
    · rw [if_pos ha]
      unfold containsSub at h
      rw [Bool.or_eq_true] at h
      rcases h with h | h
      · exfalso
        cases n with
        | nil => exact hn rfl
        | cons d ns =>
          rw [List.isPrefixOf_cons₂, Bool.and_eq_true] at h
          have hda : d = a := beq_iff_eq.mp h.1
          have hwd : isPyWhitespace d = false := by
            have h5 := (List.all_eq_true.mp hw) d (List.mem_cons_self d ns)
            simpa using h5
          rw [hda, ha] at hwd
          exact Bool.true_eq_false.mp hwd
      · exact ih h
    · rw [if_neg ha]
      exact h

theorem containsSub_pyStrip {n l : List Char} (hn : n ≠ [])
    (hw : n.all (fun c => !isPyWhitespace c) = true)
    (h : containsSub n l = true) : containsSub n (pyStrip l) = true :=
  containsSub_pyStripRight hn hw (containsSub_dropWhile hn hw h)

theorem not_containsSub_singleton_of_all {d : List Char} {c : Char}
    (hchars : d.all isAllowedTaskChar = true) (hc : isAllowedTaskChar c = false) :
    containsSub [c] d = false := by
  cases hcs : containsSub [c] d with
  | false => rfl
  | true =>
    have hmem : c ∈ d := containsSub_singleton.mp hcs
    have := (List.all_eq_true.mp hchars) c hmem
    rw [hc] at this
    exact absurd this (by simp)

/-! ## Helper lemmas about sanitize_task_description -/

theorem sanitize_isError_of_separator {raw : List Char}
    (h : containsSub ['/'] raw = true ∨ containsSub ['\\'] raw = true ∨
      containsSub ['.', '.'] raw = true) :
    ∃ e, sanitize_task_description raw = Except.error e := by
  have h2 : containsSub ['/'] (pyStrip raw) = true ∨ containsSub ['\\'] (pyStrip raw) = true ∨
      containsSub ['.', '.'] (pyStrip raw) = true := by
    rcases h with h | h | h
    · exact Or.inl (containsSub_pyStrip (by decide) (by decide) h)
    · exact Or.inr (Or.inl (containsSub_pyStrip (by decide) (by decide) h))
    · exact Or.inr (Or.inr (containsSub_pyStrip (by decide) (by decide) h))
  simp only [sanitize_task_description]
  split_ifs with h1 h3 h4
  · exact ⟨_, rfl⟩
  · exact ⟨_, rfl⟩
  · exact ⟨_, rfl⟩
  · exfalso
    apply h4
    rcases h2 with h5 | h5 | h5 <;> rw [h5] <;> simp

theorem sanitize_ok {raw : List Char}
    (hne : pyStrip raw ≠ [])
    (hlen : (pyStrip raw).length ≤ MAX_TASK_DESCRIPTION_LENGTH)
    (hchars : (pyStrip raw).all isAllowedTaskChar = true)
    (h1 : containsSub ['/'] (pyStrip raw) = false)
    (h2 : containsSub ['\\'] (pyStrip raw) = false)
    (h3 : containsSub ['.', '.'] (pyStrip raw) = false) :
    sanitize_task_description raw = Except.ok (pyStrip raw) := by
  have hemp : (pyStrip raw).isEmpty = false := by
    cases hp : pyStrip raw with
    | nil => exact absurd hp hne
    | cons a t => rfl
  have hmatch : ALLOWED_TASK_CHARS_match (pyStrip raw) = true := by
    unfold ALLOWED_TASK_CHARS_match
    rw [hemp, hchars]
    rfl
  simp only [sanitize_task_description]
  rw [if_neg (by omega)]
  rw [if_neg (by rw [hmatch]; simp)]
  rw [if_neg (by rw [h1, h2, h3]; simp)]

/-! ## Helper lemmas about association lists and the cloud trigger -/

theorem assocGet_set_self {α β : Type} [DecidableEq α] (m : List (α × β)) (k : α) (v : β) :
    assocGet (assocSet m k v) k = some v := by
  induction m with
  | nil => simp [assocSet, assocGet]
  | cons kv rest ih =>
    obtain ⟨k0, v0⟩ := kv
    by_cases h : k0 = k
    · subst h
      simp [assocSet, assocGet]
    · simp [assocSet, assocGet, h, ih]

theorem assocGet_set_ne {α β : Type} [DecidableEq α] (m : List (α × β)) (k q : α) (v : β)
    (h : q ≠ k) : assocGet (assocSet m k v) q = assocGet m q := by
  induction m with
  | nil => simp [assocSet, assocGet, Ne.symm h]
  | cons kv rest ih =>
    obtain ⟨k0, v0⟩ := kv
    by_cases h0 : k0 = k
    · subst h0
      simp [assocSet, assocGet, Ne.symm h]
    · by_cases hq : k0 = q
      · subst hq
        simp [assocSet, assocGet, h0]
      · simp [assocSet, assocGet, h0, hq, ih]

theorem trigger_github_actions_calls_le_one (tok : Option String) (net : HttpResponse)
    (chat_id : Nat) (task : String) (message_id : Nat) :
    (trigger_github_actions tok net chat_id task message_id).1.length ≤ 1 := by
  unfold trigger_github_actions
  by_cases h : tokenPresent tok <;> cases net <;> simp [h]

theorem trigger_github_actions_fail (tok : Option String) (net : HttpResponse)
    (chat_id : Nat) (task : String) (message_id : Nat)
    (h : tokenPresent tok = false ∨ net = HttpResponse.exc ∨
      ∃ co b, net = HttpResponse.status co b ∧ co ≠ 204) :
    (trigger_github_actions tok net chat_id task message_id).2 = false := by
  unfold trigger_github_actions
  rcases h with h | h | ⟨co, b, hnet, hco⟩
  · rw [h]
    rfl
  · subst h
    by_cases ht : tokenPresent tok <;> simp [ht]
  · subst hnet
    by_cases ht : tokenPresent tok <;> simp [ht, hco]

/-! ## Claim theorems -/

/-- C2 counterexample: starting from a state with an open gate and no
resolution, the second state of the approve trace (after the RESPONSE
write, before the APPROVAL unlink) has the resolution APPROVED present
while the gate is still open, so the close+resolve step is not atomic:
a poller interleaved between the two file operations observes a
resolution for a gate that is still open. -/
theorem c2_counterexample :
    approve_steps ⟨[], none, some "Proceed", none⟩ =
      [⟨[], none, some "Proceed", none⟩,
       ⟨[], none, some "Proceed", some "APPROVED"⟩,
       ⟨[], none, none, some "APPROVED"⟩] ∧
    resolutionPresent ⟨[], none, some "Proceed", some "APPROVED"⟩ = true ∧
    gateOpen ⟨[], none, some "Proceed", some "APPROVED"⟩ = true := by
  refine ⟨?_, by decide, by decide⟩
  decide

/-- C2 amended: resolving an open gate is two file operations, not one
atomic step.  The resolution is written to RESPONSE first and the
APPROVAL file is deleted second, so the final state has the gate
closed with the resolution recorded, but the trace passes through an
intermediate state in which the resolution is already present while
the gate is still open. -/
theorem c2_resolve_writes_then_closes (st : BotState) (h : gateOpen st = true) :
    approve_steps st =
      [st, { st with responseFile := some "APPROVED" },
       { st with responseFile := some "APPROVED", approvalFile := none }] ∧
    reject_steps st =
      [st, { st with responseFile := some "REJECTED" },
       { st with responseFile := some "REJECTED", approvalFile := none }] ∧
    gateOpen { st with responseFile := some "APPROVED" } = true ∧
    resolutionPresent { st with responseFile := some "APPROVED" } = true ∧
    gateOpen { st with responseFile := some "APPROVED", approvalFile := none } = false ∧
    resolutionPresent { st with responseFile := some "APPROVED", approvalFile := none } = true ∧
    gateOpen { st with responseFile := some "REJECTED" } = true ∧
    resolutionPresent { st with responseFile := some "REJECTED" } = true ∧
    gateOpen { st with responseFile := some "REJECTED", approvalFile := none } = false ∧
    resolutionPresent { st with responseFile := some "REJECTED", approvalFile := none } = true := by
  unfold gateOpen at h
  refine ⟨?_, ?_, ?_, by simp [resolutionPresent], by simp [gateOpen], by simp [resolutionPresent],
    ?_, by simp [resolutionPresent], by simp [gateOpen], by simp [resolutionPresent]⟩
  · simp [approve_steps, h]
  · simp [reject_steps, h]
  · simp [gateOpen, h]
  · simp [gateOpen, h]

/-- C2 witness: the amended theorem applied to a concrete open-gate
state. -/
theorem c2_witness :
    approve_steps ⟨[], none, some "Use rm?", none⟩ =
      [⟨[], none, some "Use rm?", none⟩,
       ⟨[], none, some "Use rm?", some "APPROVED"⟩,
       ⟨[], none, none, some "APPROVED"⟩] :=
  (c2_resolve_writes_then_closes ⟨[], none, some "Use rm?", none⟩ (by decide)).1

/-- C3: for every valid description (non-empty after sanitization, at
most MAX_TASK_DESCRIPTION_LENGTH characters, only allowed characters,
no path separators and no dot-dot traversal sequence), create_task
succeeds: it appends exactly one task artifact whose stored
description is the sanitized input, updates the STATUS artifact to
that description, and replies with the created confirmation. -/
theorem c3_create_stores_sanitized_description
    (auth : Option String) (now : Nat) (st : BotState) (user_id : Nat) (args : List (List Char))
    (hauth : is_authorized user_id auth = true)
    (hne : pyStrip (joinSpace args) ≠ [])
    (hlen : (pyStrip (joinSpace args)).length ≤ MAX_TASK_DESCRIPTION_LENGTH)
    (hchars : (pyStrip (joinSpace args)).all isAllowedTaskChar = true)
    (h1 : containsSub ['/'] (pyStrip (joinSpace args)) = false)
    (h2 : containsSub ['\\'] (pyStrip (joinSpace args)) = false)
    (h3 : containsSub ['.', '.'] (pyStrip (joinSpace args)) = false) :
    create_task auth now st user_id args =
      ({ st with
          tasks := st.tasks ++
            [{ createdAt := now, status := .pending, description := pyStrip (joinSpace args) }],
          statusFile := some
            { taskDescription := pyStrip (joinSpace args), startedAt := now, fileName := now } },
       some (.created (pyStrip (joinSpace args)) now)) := by
  have hargs : args.isEmpty = false := by
    cases hag : args with
    | nil =>
      subst hag
      exact absurd rfl hne
    | cons a t => rfl
  unfold create_task
  rw [hauth]
  simp only [Bool.not_true, Bool.false_eq_true, if_false, hargs,
    sanitize_ok hne hlen hchars h1 h2 h3]

/-- C3 witness: a concrete valid description is stored verbatim. -/
theorem c3_witness :
    create_task (some "7") 3 ⟨[], none, none, none⟩ 7 [['f', 'i', 'x'], ['i', 't']] =
      (⟨[⟨3, .pending, ['f', 'i', 'x', ' ', 'i', 't']⟩],
        some ⟨['f', 'i', 'x', ' ', 'i', 't'], 3, 3⟩, none, none⟩,
       some (.created ['f', 'i', 'x', ' ', 'i', 't'] 3)) := by
  have h := c3_create_stores_sanitized_description (some "7") 3 ⟨[], none, none, none⟩ 7
    [['f', 'i', 'x'], ['i', 't']] (by decide) (by decide) (by decide) (by decide)
    (by decide) (by decide) (by decide)
  exact h

/-- C4: every description containing a slash, a backslash or a dot-dot
sequence is rejected by create_task with a validation error, and the
state is returned unchanged: no task artifact is appended and the
STATUS artifact is untouched. -/
theorem c4_path_separator_rejected
    (auth : Option String) (now : Nat) (st : BotState) (user_id : Nat) (args : List (List Char))
    (hauth : is_authorized user_id auth = true)
    (hbad : containsSub ['/'] (joinSpace args) = true ∨
      containsSub ['\\'] (joinSpace args) = true ∨
      containsSub ['.', '.'] (joinSpace args) = true) :
    ∃ e, create_task auth now st user_id args = (st, some (.validationError e)) := by
  have hargs : args.isEmpty = false := by
    cases hag : args with
    | nil =>
      subst hag
      rcases hbad with h | h | h <;> simp [joinSpace, containsSub] at h
    | cons a t => rfl
  obtain ⟨e, he⟩ := sanitize_isError_of_separator hbad
  refine ⟨e, ?_⟩
  unfold create_task
  rw [hauth]
  simp only [Bool.not_true, Bool.false_eq_true, if_false, hargs, he]

/-- C4 witness: a concrete traversal attempt is rejected without any
state change. -/
theorem c4_witness :
    ∃ e, create_task (some "7") 3 ⟨[], none, none, none⟩ 7
      [['.', '.'], ['e', 't', 'c']] = (⟨[], none, none, none⟩, some (.validationError e)) :=
  c4_path_separator_rejected (some "7") 3 ⟨[], none, none, none⟩ 7
    [['.', '.'], ['e', 't', 'c']] (by decide) (by decide)

set_option maxRecDepth 40000 in
/-- C9 counterexample: a description of exactly
MAX_TASK_DESCRIPTION_LENGTH + 1 characters (one letter followed by 500
spaces) does NOT fail: the handler strips trailing whitespace before
the length check, so this 501-character description is accepted and
creates a task.  The claim's failure branch is therefore false as
universally stated. -/
theorem c9_counterexample :
    ('a' :: List.replicate 500 ' ').length = MAX_TASK_DESCRIPTION_LENGTH + 1 ∧
    sanitize_task_description ('a' :: List.replicate 500 ' ') = Except.ok ['a'] := by
  constructor
  · simp [MAX_TASK_DESCRIPTION_LENGTH]
  · decide

/-- C9 amended: the boundary holds for the stripped description: if
the description still has MAX + 1 characters after stripping, creation
fails with the length validation error; if the stripped description
has exactly MAX characters, all from the allowed set and without a
dot-dot sequence, sanitization succeeds and returns it unchanged. -/
theorem c9_length_boundary (d : List Char) :
    ((pyStrip d).length = MAX_TASK_DESCRIPTION_LENGTH + 1 →
      sanitize_task_description d = Except.error .tooLong) ∧
    ((pyStrip d).length = MAX_TASK_DESCRIPTION_LENGTH →
      (pyStrip d).all isAllowedTaskChar = true →
      containsSub ['.', '.'] (pyStrip d) = false →
      sanitize_task_description d = Except.ok (pyStrip d)) := by
  constructor
  · intro hlen
    simp only [sanitize_task_description]
    rw [if_pos (by omega)]
  · intro hlen hchars hdd
    have hne : pyStrip d ≠ [] := by
      intro h0
      rw [h0] at hlen
      simp [MAX_TASK_DESCRIPTION_LENGTH] at hlen
    exact sanitize_ok hne (by omega) hchars
      (not_containsSub_singleton_of_all hchars (by decide))
      (not_containsSub_singleton_of_all hchars (by decide)) hdd

set_option maxRecDepth 40000 in
/-- C9 witness: the amended boundary at concrete descriptions of 501
and 500 letters. -/
theorem c9_witness :
    sanitize_task_description (List.replicate 501 'b') = Except.error .tooLong ∧
    sanitize_task_description (List.replicate 500 'b') =
      Except.ok (pyStrip (List.replicate 500 'b')) :=
  ⟨(c9_length_boundary (List.replicate 501 'b')).1 (by decide),
   (c9_length_boundary (List.replicate 500 'b')).2 (by decide) (by decide) (by decide)⟩

/-- C1: evaluation of both programs at the unauthorized requester 999
(configured authorized identity "123").  In src/bot.py every handler
checks is_authorized and returns with no state change and no reply.
In src/bot_v3.py no handler performs any authorization check, so the
very same unauthorized requester mutates the per-requester mode map
with the cloud command, triggers an outbound cloud dispatch with the
task command, and overwrites the local exchange file when the probe
selects local — contradicting the claim that unauthorized requests
never cause a state change or a backend dispatch. -/
theorem c1_bot_v3_lacks_authorization :
    is_authorized 999 (some "123") = false ∧
    create_task (some "123") 0 ⟨[], none, none, none⟩ 999 [['x']] =
      (⟨[], none, none, none⟩, none) ∧
    approve (some "123") ⟨[], none, some "Proceed", none⟩ 999 =
      (⟨[], none, some "Proceed", none⟩, none) ∧
    reject (some "123") ⟨[], none, some "Proceed", none⟩ 999 =
      (⟨[], none, some "Proceed", none⟩, none) ∧
    cloud_mode ⟨[], []⟩ 999 = (⟨[(999, .cloud)], []⟩, .switchedCloud) ∧
    task_command (some "tok") [] (.status 204 "") ⟨[(999, .cloud)], []⟩ 999 ["x"] 1 =
      (⟨[(999, .cloud)], []⟩, [⟨999, "x", 1⟩],
       [.queued .cloud "x", .cloudOk]) ∧
    task_command (some "tok") [⟨"code", none⟩] .exc ⟨[], []⟩ 999 ["x"] 1 =
      (⟨[], [(pending_task_path, "x")]⟩, [],
       [.queued .«local» "x", .localOk]) := by
  refine ⟨by decide, by decide, by decide, by decide, by decide, ?_, ?_⟩ <;> decide

/-- C5 counterexample: a concrete failed cloud dispatch (no credential
configured, requester 5 pinned to cloud).  The dispatch fails and the
requester is told so, but the resulting program state is identical to
the initial state: src/bot_v3.py keeps no task record at all, so no
stored task status is, or can be, set to failed — refuting the
claim's stored-status conjunct. -/
theorem c5_counterexample :
    task_command none [] .exc ⟨[(5, .cloud)], [("p", "old")]⟩ 5 ["fix"] 1 =
      (⟨[(5, .cloud)], [("p", "old")]⟩, [], [.queued .cloud "fix", .cloudFail]) := by
  decide

/-- C5 amended: on any transport failure of a cloud dispatch (missing
credential, network exception, or any non-204 status), the dispatch
reports failure, the requester is notified exactly once with the
cloud-failure message, at most one trigger call is made (no automatic
retry), and the program state is returned unchanged — in particular
no stored task status exists or is updated, since bot_v3 keeps no
task record. -/
theorem c5_cloud_failure_no_retry
    (tok : Option String) (procs : List ProcInfo) (net : HttpResponse)
    (st : V3State) (chat_id : Nat) (args : List String) (message_id : Nat)
    (hargs : args.isEmpty = false)
    (hmode : resolve_mode st.user_execution_mode chat_id procs = .cloud)
    (hfail : tokenPresent tok = false ∨ net = HttpResponse.exc ∨
      ∃ co b, net = HttpResponse.status co b ∧ co ≠ 204) :
    task_command tok procs net st chat_id args message_id =
      (st,
       (trigger_github_actions tok net chat_id (joinWords args) message_id).1,
       [.queued .cloud (joinWords args), .cloudFail]) ∧
    (trigger_github_actions tok net chat_id (joinWords args) message_id).1.length ≤ 1 := by
  constructor
  · unfold task_command
    rw [hargs]
    simp only [Bool.false_eq_true, if_false, hmode,
      trigger_github_actions_fail tok net chat_id (joinWords args) message_id hfail]
  · exact trigger_github_actions_calls_le_one tok net chat_id (joinWords args) message_id

/-- C5 witness: the amended statement at a concrete unreachable
endpoint (credential present, network raises). -/
theorem c5_witness :
    task_command (some "tok") [] HttpResponse.exc ⟨[(5, .cloud)], []⟩ 5 ["fix"] 1 =
      (⟨[(5, .cloud)], []⟩, [⟨5, "fix", 1⟩], [.queued .cloud "fix", .cloudFail]) := by
  have h := c5_cloud_failure_no_retry (some "tok") [] HttpResponse.exc ⟨[(5, .cloud)], []⟩ 5
    ["fix"] 1 (by decide) (by decide) (Or.inr (Or.inl rfl))
  exact h.1

/-- C6: mode resolution for a new task.  With a stored explicit
override the override is returned unchanged whatever the process list
is; with no stored mode the result is exactly the liveness probe of
the moment: local precisely when some accessible process matches the
agent signature (claude in the joined lowercased command line, or code
in the lowercased name), cloud precisely when none does. -/
theorem c6_mode_resolution (m : List (Nat × Mode)) (chat_id : Nat) (procs : List ProcInfo) :
    (∀ mo, assocGet m chat_id = some mo → resolve_mode m chat_id procs = mo) ∧
    (assocGet m chat_id = none →
      resolve_mode m chat_id procs = detect_execution_mode procs ∧
      (resolve_mode m chat_id procs = .«local» ↔ ∃ p ∈ procs, agentSignature p = true) ∧
      (resolve_mode m chat_id procs = .cloud ↔ ∀ p ∈ procs, agentSignature p = false)) := by
  constructor
  · intro mo hmo
    unfold resolve_mode
    rw [hmo]
    rfl
  · intro hnone
    have hres : resolve_mode m chat_id procs = detect_execution_mode procs := by
      unfold resolve_mode
      rw [hnone]
      rfl
    refine ⟨hres, ?_, ?_⟩
    · rw [hres]
      unfold detect_execution_mode
      by_cases h : procs.any agentSignature = true
      · rw [if_pos h]
        simp only [true_iff]
        exact List.any_eq_true.mp h
      · rw [if_neg h]
        constructor
        · intro h0
          exact absurd h0 (by simp)
        · intro h0
          exact absurd (List.any_eq_true.mpr h0) h
    · rw [hres]
      unfold detect_execution_mode
      by_cases h : procs.any agentSignature = true
      · rw [if_pos h]
        constructor
        · intro h0
          exact absurd h0 (by simp)
        · intro h0
          obtain ⟨p, hp, hsig⟩ := List.any_eq_true.mp h
          rw [h0 p hp] at hsig
          exact absurd hsig (by simp)
      · rw [if_neg h]
        simp only [true_iff]
        intro p hp
        rcases hs : agentSignature p with _ | _
        · rfl
        · exact absurd (List.any_eq_true.mpr ⟨p, hp, hs⟩) h

/-- C6 witness: the theorem applied to a stored override and to an
empty mode map with no live agent process. -/
theorem c6_witness :
    resolve_mode [(1, .«local»)] 1 [] = .«local» ∧
    resolve_mode [] 1 [] = .cloud :=
  ⟨(c6_mode_resolution [(1, .«local»)] 1 []).1 .«local» rfl,
   ((c6_mode_resolution [] 1 []).2 rfl).2.2.mpr (by simp)⟩

/-- C7 counterexample: the auto command run while an agent process is
alive stores the concrete snapshot local; a task submitted later, when
no agent process is alive (the probe at submission time says cloud),
is nevertheless dispatched to the local backend.  So after selecting
auto mode, backend choice does not track liveness at submission
time. -/
theorem c7_counterexample :
    auto_mode [⟨"python3", some ["claude"]⟩] ⟨[], []⟩ 5 =
      (⟨[(5, .«local»)], []⟩, .autoDetected .«local») ∧
    detect_execution_mode [] = .cloud ∧
    task_command (some "tok") [] (.status 204 "") ⟨[(5, .«local»)], []⟩ 5 ["fix"] 1 =
      (⟨[(5, .«local»)], [(pending_task_path, "fix")]⟩, [],
       [.queued .«local» "fix", .localOk]) := by
  refine ⟨?_, by decide, ?_⟩ <;> decide

/-- C7 amended: only a requester with NO stored mode is re-probed per
task: the task handler then picks exactly the probe's answer at
submission time.  The auto command does not store a dynamic auto
marker; it stores the concrete mode detected at the moment it runs,
which subsequent tasks reuse as a stored override. -/
theorem c7_unset_reprobes_but_auto_snapshots
    (tok : Option String) (procs : List ProcInfo) (net : HttpResponse)
    (st : V3State) (chat_id : Nat) (args : List String) (message_id : Nat)
    (hnone : assocGet st.user_execution_mode chat_id = none)
    (hargs : args.isEmpty = false) :
    (task_command tok procs net st chat_id args message_id).2.2.head? =
      some (.queued (detect_execution_mode procs) (joinWords args)) ∧
    ∀ procsAuto : List ProcInfo,
      assocGet (auto_mode procsAuto st chat_id).1.user_execution_mode chat_id =
        some (detect_execution_mode procsAuto) := by
  constructor
  · have hres : resolve_mode st.user_execution_mode chat_id procs =
        detect_execution_mode procs := by
      unfold resolve_mode
      rw [hnone]
      rfl
    unfold task_command
    rw [hargs]
    simp only [Bool.false_eq_true, if_false, hres]
    cases hd : detect_execution_mode procs <;> simp
  · intro procsAuto
    unfold auto_mode
    exact assocGet_set_self st.user_execution_mode chat_id (detect_execution_mode procsAuto)

/-- C7 witness: the amended statement at an unset requester with no
live agent process (probe answers cloud) and a subsequent auto
snapshot over a live agent process. -/
theorem c7_witness :
    (task_command (some "tok") [] HttpResponse.exc ⟨[], []⟩ 5 ["go"] 1).2.2.head? =
      some (.queued (detect_execution_mode []) "go") ∧
    assocGet (auto_mode [⟨"python3", some ["claude"]⟩] (⟨[], []⟩ : V3State) 5).1.user_execution_mode 5 =
      some (detect_execution_mode [⟨"python3", some ["claude"]⟩]) :=
  ⟨(c7_unset_reprobes_but_auto_snapshots (some "tok") [] HttpResponse.exc ⟨[], []⟩ 5
      ["go"] 1 rfl rfl).1,
   (c7_unset_reprobes_but_auto_snapshots (some "tok") [] HttpResponse.exc ⟨[], []⟩ 5
      ["go"] 1 rfl rfl).2 [⟨"python3", some ["claude"]⟩]⟩

/-- C8: a cloud dispatch succeeds if and only if the credential is
truthy and the endpoint answers exactly status 204; every other
status, a missing credential, and a network exception all report
failure. -/
theorem c8_cloud_success_iff (tok : Option String) (net : HttpResponse)
    (chat_id : Nat) (task : String) (message_id : Nat) :
    (trigger_github_actions tok net chat_id task message_id).2 = true ↔
      tokenPresent tok = true ∧ ∃ b, net = HttpResponse.status 204 b := by
  unfold trigger_github_actions
  by_cases ht : tokenPresent tok
  · cases net with
    | status co b =>
      simp only [ht, Bool.not_true, Bool.false_eq_true, if_false, true_and]
      constructor
      · intro h
        exact ⟨b, by rw [of_decide_eq_true h]⟩
      · rintro ⟨b2, hb⟩
        obtain ⟨h1, h2⟩ := HttpResponse.status.injEq co b 204 b2 ▸ hb
        exact decide_eq_true (by rw [h1])
    | exc => simp [ht]
  · simp only [Bool.not_eq_true] at ht
    simp [ht]

/-- C10: local dispatch is a single-slot exchange: it always writes to
the one fixed pending-task path, unconditionally overwriting previous
contents.  After two successive local dispatches with no intervening
consumption, the exchange file holds only the later description (the
earlier one is lost), every other path is untouched, and both writes
report success. -/
theorem c10_single_slot_overwrite (st : V3State) (d1 d2 : String) :
    assocGet ((trigger_local_execution (trigger_local_execution st d1).1 d2).1).files
      pending_task_path = some d2 ∧
    (trigger_local_execution st d1).2 = true ∧
    (trigger_local_execution (trigger_local_execution st d1).1 d2).2 = true ∧
    ∀ p, p ≠ pending_task_path →
      assocGet ((trigger_local_execution (trigger_local_execution st d1).1 d2).1).files p =
        assocGet st.files p := by
  refine ⟨?_, rfl, rfl, ?_⟩
  · unfold trigger_local_execution
    exact assocGet_set_self _ pending_task_path d2
  · intro p hp
    unfold trigger_local_execution
    rw [assocGet_set_ne _ pending_task_path p d2 hp,
      assocGet_set_ne _ pending_task_path p d1 hp]

/-- C10 witness: two concrete successive local dispatches; the slot
holds only the later description and an unrelated path is unchanged. -/
theorem c10_witness :
    assocGet ((trigger_local_execution
        (trigger_local_execution ⟨[], []⟩ "first").1 "second").1).files
      pending_task_path = some "second" ∧
    assocGet ((trigger_local_execution
        (trigger_local_execution ⟨[], []⟩ "first").1 "second").1).files "other" =
      assocGet (⟨[], []⟩ : V3State).files "other" :=
  ⟨(c10_single_slot_overwrite ⟨[], []⟩ "first" "second").1,
   (c10_single_slot_overwrite ⟨[], []⟩ "first" "second").2.2.2 "other" (by decide)⟩

end TelegramControl
